import Mathlib

/-!
Verification of the financial-context aggregation and prompt-composition
logic of the Personal-Finance-Manager chat feature (`src/actions/chat.js`
and the duplicate in `src/unnamed/part_000`).

The JavaScript code is shallowly embedded: database rows become Lean
structures, Prisma queries become filters/sorts over lists, monetary
amounts (`Decimal.toNumber()`) are modelled as exact integers, and the
fallible parts (`try`/`catch`, the LLM call) return `Option`/`Except`.
-/

namespace PFM

/-- Model of a JavaScript `Date` as stored for a transaction: its epoch
instant (used for `orderBy: date desc` and `date: gte`) together with the
day string produced by `toISOString().split('T')[0]`. -/
structure JsDate where
  epoch : Int
  isoDay : String
deriving DecidableEq, Repr

/-- A row of `db.transaction` (the fields `getUserFinancialContext` reads). -/
structure TransactionRecord where
  userId : Nat
  accountId : Nat
  type : String
  amount : Int
  category : String
  description : String
  date : JsDate
deriving DecidableEq, Repr

/-- A row of `db.account` (the fields `getUserFinancialContext` reads). -/
structure AccountRecord where
  id : Nat
  userId : Nat
  name : String
  type : String
  balance : Int
  isDefault : Bool
deriving DecidableEq, Repr

/-- A row of `db.budget`. -/
structure BudgetRecord where
  userId : Nat
  amount : Int
deriving DecidableEq, Repr

/-- A row of `db.user`. -/
structure UserRecord where
  id : Nat
  clerkUserId : String
deriving DecidableEq, Repr

/-- A row of `db.chatMessage`. -/
structure ChatMessageRecord where
  content : String
  role : String
  userId : Nat
  createdAt : Nat
deriving DecidableEq, Repr

/-- The database state visible to the chat actions. -/
structure DB where
  accounts : List AccountRecord
  transactions : List TransactionRecord
  budgets : List BudgetRecord
  users : List UserRecord
  chatMessages : List ChatMessageRecord
deriving Repr

/-- `orderBy: \x7b date: 'desc' \x7d` on transactions. -/
def sortByDateDesc (l : List TransactionRecord) : List TransactionRecord :=
  l.mergeSort (fun a b => decide (b.date.epoch ≤ a.date.epoch))

/-- The `include: transactions` relation of `db.account.findMany`:
each account's transactions ordered by date descending, `take: 10`. -/
def accountTransactions (db : DB) (acc : AccountRecord) : List TransactionRecord :=
  (sortByDateDesc (db.transactions.filter (fun t => t.accountId == acc.id))).take 10

/-- `db.account.findMany(\x7b where: \x7b userId \x7d ... \x7d)`. -/
def userAccounts (db : DB) (userId : Nat) : List AccountRecord :=
  db.accounts.filter (fun a => a.userId == userId)

/-- `db.budget.findFirst(\x7b where: \x7b userId \x7d \x7d)`. -/
def userBudget (db : DB) (userId : Nat) : Option BudgetRecord :=
  db.budgets.find? (fun b => b.userId == userId)

/-- `db.transaction.findMany` with `where: \x7b userId, date: \x7b gte: startOfMonth \x7d \x7d`. -/
def monthlyTransactions (db : DB) (userId : Nat) (startOfMonth : Int) : List TransactionRecord :=
  db.transactions.filter (fun t => t.userId == userId && decide (startOfMonth ≤ t.date.epoch))

/-- `monthlyTransactions.filter(t => t.type === 'INCOME').reduce((sum, t) => sum + t.amount, 0)`. -/
def monthlyIncome (db : DB) (userId : Nat) (startOfMonth : Int) : Int :=
  ((monthlyTransactions db userId startOfMonth).filter
    (fun t => t.type == "INCOME")).foldl (fun sum t => sum + t.amount) 0

/-- `monthlyTransactions.filter(t => t.type === 'EXPENSE').reduce((sum, t) => sum + t.amount, 0)`. -/
def monthlyExpenses (db : DB) (userId : Nat) (startOfMonth : Int) : Int :=
  ((monthlyTransactions db userId startOfMonth).filter
    (fun t => t.type == "EXPENSE")).foldl (fun sum t => sum + t.amount) 0

/-- One step of the `reduce` that groups expenses by category:
`acc[t.category] = (acc[t.category] || 0) + t.amount` on a JavaScript
object modelled as an insertion-ordered association list. -/
def upsertAdd (key : String) (amount : Int) : List (String × Int) → List (String × Int)
  | [] => [(key, amount)]
  | (k, v) :: rest =>
    if k == key then (k, v + amount) :: rest else (k, v) :: upsertAdd key amount rest

/-- `monthlyTransactions.filter(t => t.type === 'EXPENSE').reduce((acc, t) => ..., \x7b\x7d)`. -/
def expensesByCategory (db : DB) (userId : Nat) (startOfMonth : Int) : List (String × Int) :=
  ((monthlyTransactions db userId startOfMonth).filter
    (fun t => t.type == "EXPENSE")).foldl (fun acc t => upsertAdd t.category t.amount acc) []

/-- An entry of the `recentTransactions` field of the context. -/
structure ContextTransaction where
  amount : Int
  description : String
  category : String
  type : String
  date : String
deriving DecidableEq, Repr

/-- An entry of the `accounts` field of the context. -/
structure ContextAccount where
  name : String
  type : String
  balance : Int
  isDefault : Bool
deriving DecidableEq, Repr

/-- The object returned by `getUserFinancialContext` on success. -/
structure FinancialContext where
  totalBalance : Int
  accounts : List ContextAccount
  budget : Option Int
  monthlyIncome : Int
  monthlyExpenses : Int
  netIncome : Int
  expensesByCategory : List (String × Int)
  recentTransactions : List ContextTransaction
deriving DecidableEq, Repr

/-- The successful body of `getUserFinancialContext` in `src/actions/chat.js`
(lines 11-89), with the current time abstracted into the `startOfMonth`
instant the code derives from `new Date()`. -/
def getUserFinancialContext (db : DB) (userId : Nat) (startOfMonth : Int) :
    FinancialContext :=
  let accounts := userAccounts db userId
  let budget := userBudget db userId
  { totalBalance := accounts.foldl (fun sum account => sum + account.balance) 0
    accounts := accounts.map (fun acc =>
      { name := acc.name, type := acc.type, balance := acc.balance
        isDefault := acc.isDefault })
    budget := budget.map (fun b => b.amount)
    monthlyIncome := monthlyIncome db userId startOfMonth
    monthlyExpenses := monthlyExpenses db userId startOfMonth
    netIncome := monthlyIncome db userId startOfMonth - monthlyExpenses db userId startOfMonth
    expensesByCategory := expensesByCategory db userId startOfMonth
    recentTransactions := (accounts.flatMap (fun acc =>
      (accountTransactions db acc).map (fun t =>
        { amount := t.amount, description := t.description, category := t.category
          type := t.type, date := t.date.isoDay }))).take 15 }

/-- The successful body of the duplicate `getUserFinancialContext` in
`src/unnamed/part_000` (lines 11-89); the source there is line-for-line the
same as the one in `src/actions/chat.js`. -/
def getUserFinancialContextPart000 (db : DB) (userId : Nat) (startOfMonth : Int) :
    FinancialContext :=
  let accounts := userAccounts db userId
  let budget := userBudget db userId
  { totalBalance := accounts.foldl (fun sum account => sum + account.balance) 0
    accounts := accounts.map (fun acc =>
      { name := acc.name, type := acc.type, balance := acc.balance
        isDefault := acc.isDefault })
    budget := budget.map (fun b => b.amount)
    monthlyIncome := monthlyIncome db userId startOfMonth
    monthlyExpenses := monthlyExpenses db userId startOfMonth
    netIncome := monthlyIncome db userId startOfMonth - monthlyExpenses db userId startOfMonth
    expensesByCategory := expensesByCategory db userId startOfMonth
    recentTransactions := (accounts.flatMap (fun acc =>
      (accountTransactions db acc).map (fun t =>
        { amount := t.amount, description := t.description, category := t.category
          type := t.type, date := t.date.isoDay }))).take 15 }

/-- The whole of `getUserFinancialContext` including its `try`/`catch`: when
any of the awaited database reads fails the function returns `null` instead
of raising; a failed read is modelled as an `Except.error` database state. -/
def getUserFinancialContextCaught (dbRes : Except String DB) (userId : Nat)
    (startOfMonth : Int) : Option FinancialContext :=
  match dbRes with
  | .error _ => none
  | .ok db => some (getUserFinancialContext db userId startOfMonth)

def chatJsSeg0 : String :=
  "You are a helpful personal finance advisor AI assistant. You have access to the user's financial data and should provide personalized advice based on their situation.\n\nUser's Financial Summary:\n- Total Balance: $"

def chatJsSeg1 : String :=
  "\n- Monthly Income: $"

def chatJsSeg2 : String :=
  "\n- Monthly Expenses: $"

def chatJsSeg3 : String :=
  "\n- Net Monthly Income: $"

def chatJsSeg4 : String :=
  "\n- Budget: $"

def chatJsSeg5 : String :=
  "\n\nAccounts:\n"

def chatJsSeg6 : String :=
  "\n\nMonthly Expenses by Category:\n"

def chatJsSeg7 : String :=
  "\n\nRecent Transactions:\n"

def chatJsSeg8 : String :=
  "\n\nProvide helpful, actionable financial advice. Be encouraging and supportive. If asked about specific transactions or account balances, refer to the data above. Keep responses concise but informative.\n\nFormat your response using markdown for better readability:\n- Use **bold** for important points and action items\n- Use bullet points for lists and recommendations\n- Use numbered lists for step-by-step advice\n- Keep paragraphs short and focused\n- Use clear headings when appropriate\n\nPrevious conversation:\n"

def chatJsSeg9 : String :=
  "\n\nCurrent user message: "

def chatJsSeg10 : String :=
  ""


def part000Seg0 : String :=
  "You are a Personal Finance Advisor LLM integrated into a financial management system. \nYour role is to provide accurate, data-driven, and concise responses — without soft talk, filler, or unnecessary conversation. \nYour knowledge base includes all major investment categories, market types, instruments, strategies, and asset classes.\n\n### Behavior Rules:\n1.  *When giving advice*:\n    - Use the user's financial data provided in context (e.g., income, expenses, goals, investment history) to offer personalized recommendations.\n    - Give specific, actionable advice in clear steps or bullet points.\n    - Avoid generic motivational or empathetic phrases.\n\n2.  *When providing factual information*:\n    - Rely only on verifiable financial knowledge or publicly available data.\n    - Do *not* use or infer from user-specific data unless directly relevant to the question.\n    - Keep the tone objective and neutral.\n\n3.  *When comparing stocks*:\n    - This is a specific, multi-step task.\n    - **Step 1: Explain Key Metrics.** Always begin by explaining the following five standard metrics.\n        - **Price-to-Earnings (P/E) Ratio**: How much investors are willing to pay for each dollar of a company's earnings. A high P/E ratio can suggest the stock is overvalued, while a low P/E might indicate it's undervalued.\n        - **Earnings Per Share (EPS)**: A company's profit allocated to each outstanding share of its common stock. It is a key indicator of profitability.\n        - **Return on Equity (ROE)**: How effectively a company uses shareholder equity to generate profits. A higher ROE indicates more efficiency.\n        - **Debt-to-Equity (D/E) Ratio**: A company's total liabilities compared to its shareholder equity. It shows financial leverage and risk. A high D/E ratio can indicate higher risk.\n        - **Dividend Yield**: The annual dividends a company pays out as a percentage of its current stock price. Shows the income return for an investor.\n    - **Step 2: Compile Metrics.** Check if the user has provided any custom metrics (e.g., \"also compare Price-to-Book ratio\").\n    - **Step 3: Present Data.** Display the comparison in a statistical table. Your table must include the five standard metrics *plus* any additional metrics requested by the user.\n    - **Step 4: Provide Advice.** Conclude with a data-driven recommendation based *only* on the metrics in the table. State which stock appears stronger for different investment goals (e.g., growth, value, income).\n\n4.  *When explaining/comparing financial markets & concepts*:\n    - When asked to define terms (e.g., 'What is an ETF?', 'What is Thematic Investing?'), use your internal knowledge base to provide a clear, factual definition.\n    - When asked to compare different investment types or markets (e.g., 'Equity vs. Bonds', 'Stocks vs. Crypto'), provide a balanced comparison table based on key factors: **Risk**, **Return Potential**, **Liquidity**, **Time Horizon**, and **Regulation**.\n    - When asked about the 'safest' or 'best' investment, clarify that 'safest' generally refers to low-risk/low-return assets (e.g., Government Bonds, Fixed Deposits) and that 'best' is dependent on an individual's specific goals, risk tolerance, and investment timeline.\n\n5.  *Response Style*:\n    - Always be concise and structured.\n    - No greetings, small talk, or emotional tone.\n    - If data is insufficient, clearly state what's missing or what inputs are needed.\n    - Use numbers or tables when it improves clarity.\n\n6.  *Boundaries*:\n    - Do not generate assumptions about the user beyond the provided data.\n    - Do not make speculative financial forecasts or guarantee returns.\n    - Do not engage in conversational tone — only direct responses.\n\n### Example 1 (Stock Comparison):\n*User query*: \"Compare Stock ABC and Stock XYZ. Also add P/B ratio.\"\n→ *Response*:\n\"### Key Stock Comparison Metrics\n* **P/E Ratio**: Measures if a stock is over or undervalued.\n* **EPS**: Indicates company profitability per share.\n* **ROE**: Shows efficiency in using shareholder funds.\n* **D/E Ratio**: Measures financial leverage and risk.\n* **Dividend Yield**: Shows income return from dividends.\n\n### Statistical Comparison\n\n| Metric          | Stock ABC | Stock XYZ | Industry Avg. |\n|-----------------|-----------|-----------|---------------|\n| P/E Ratio       | 15.2      | 25.8      | 20.5          |\n| EPS (TTM)       | $4.50     | $3.10     | $3.80         |\n| ROE             | 18.5%     | 12.2%     | 15.0%         |\n| D/E Ratio       | 0.4       | 0.9       | 0.6           |\n| Dividend Yield  | 2.1%      | 1.5%      | 1.8%          |\n\n### Advice\n* **Stock ABC**: Shows stronger value fundamentals. Its lower P/E and P/B suggest it may be undervalued. Higher EPS and ROE indicate superior profitability and efficiency. The lower D/E ratio signifies lower financial risk.\n* **Stock XYZ**: Appears overvalued (high P/E, P/B) with lower profitability and higher debt.\n\nBased on these metrics, Stock ABC demonstrates a more favorable profile for a value-oriented investor.\"\n\n### Example 2 (Market Comparison):\n*User query*: \"What is safer, Fixed Deposits or Equity Mutual Funds?\"\n→ *Response*:\n\"Safest' refers to risk of capital loss. Fixed Deposits (FDs) are significantly safer than Equity Mutual Funds (MFs).\n\n### Comparison: FD vs. Equity MF\n| Feature | Fixed Deposit (FD) | Equity Mutual Fund (MF) |\n|---|---|---|\n| **Primary Goal** | Capital protection, fixed income | Capital growth |\n| **Risk** | Very Low. Regulated by RBI. | Moderate to High. Subject to market risk. |\n| **Return Potential** | Low. Fixed, predictable (e.g., 6-7.5%) | High. Variable, not guaranteed. |\n| **Liquidity** | High (penalty on early withdrawal) | High (T+2 settlement) |\n| **Best For** | Short-term goals, emergency funds | Long-term goals (5+ years), wealth creation |\n\n**Conclusion**: Use FDs for safety and predictable income. Use Equity MFs for long-term growth, accepting market volatility.\"\n\nAlways follow these principles consistently.\n\n---\n### USER FINANCIAL CONTEXT\n**User's Financial Summary:**\n- Total Balance: $"

def part000Seg1 : String :=
  "\n- Monthly Income: $"

def part000Seg2 : String :=
  "\n- Monthly Expenses: $"

def part000Seg3 : String :=
  "\n- Net Monthly Income: $"

def part000Seg4 : String :=
  "\n- Budget: $"

def part000Seg5 : String :=
  "\n\n**Accounts:**\n"

def part000Seg6 : String :=
  "\n\n**Monthly Expenses by Category:**\n"

def part000Seg7 : String :=
  "\n\n**Recent Transactions:**\n"

def part000Seg8 : String :=
  "\n\n---\n### TASK\nProvide helpful, actionable financial advice based on the data.\n- If asked about specific transactions or account balances, refer to the data above.\n- Keep responses concise, data-driven, and structured.\n- Use markdown (bolding, lists, tables) for clarity as defined in the rules.\n\n**Previous conversation:**\n"

def part000Seg9 : String :=
  "\n\n**Current user message:** "

def part000Seg10 : String :=
  ""

/-- `toFixed(2)` on an amount; amounts are modelled as exact integers. -/
def toFixed2 (n : Int) : String :=
  toString n ++ ".00"

/-- `financialContext?.⟨field⟩?.toFixed(2) || 'N/A'` for the three
always-present numeric summary fields. -/
def renderSummaryNum (financialContext : Option FinancialContext)
    (field : FinancialContext → Int) : String :=
  match financialContext with
  | none => "N/A"
  | some c => toFixed2 (field c)

/-- `financialContext?.budget?.toFixed(2) || 'No budget set'` (the `budget`
field is `null` when the user has no budget row). -/
def renderBudget (financialContext : Option FinancialContext) : String :=
  match financialContext with
  | none => "No budget set"
  | some c =>
    match c.budget with
    | none => "No budget set"
    | some b => toFixed2 b

/-- The nested template literal rendering one account line. -/
def renderAccountLine (acc : ContextAccount) : String :=
  "- " ++ acc.name ++ " (" ++ acc.type ++ "): $" ++ toFixed2 acc.balance ++
    (if acc.isDefault then " (Default)" else "")

/-- `financialContext?.accounts?.map(...).join('\n') || 'No accounts found'`;
the join of an empty array is the empty string, which is falsy in JS. -/
def renderAccounts (financialContext : Option FinancialContext) : String :=
  match financialContext with
  | none => "No accounts found"
  | some c =>
    let s := String.intercalate "\n" (c.accounts.map renderAccountLine)
    if s = "" then "No accounts found" else s

/-- `financialContext?.expensesByCategory ? Object.entries(...).map(...).join('\n')
: 'No expense data available'`; an object is truthy even when empty, so the
fallback appears only when the context itself is `null`. -/
def renderExpensesByCategory (financialContext : Option FinancialContext) : String :=
  match financialContext with
  | none => "No expense data available"
  | some c =>
    String.intercalate "\n"
      (c.expensesByCategory.map (fun p => "- " ++ p.1 ++ ": $" ++ toFixed2 p.2))

/-- The nested template literal rendering one recent-transaction line. -/
def renderTransactionLine (t : ContextTransaction) : String :=
  "- " ++ t.date ++ ": " ++ (if t.type == "EXPENSE" then "-" else "+") ++ "$" ++
    toFixed2 t.amount ++ " - " ++ t.description ++ " (" ++ t.category ++ ")"

/-- `financialContext?.recentTransactions?.slice(0, 5).map(...).join('\n')
|| 'No recent transactions'`. -/
def renderRecentTransactions (financialContext : Option FinancialContext) : String :=
  match financialContext with
  | none => "No recent transactions"
  | some c =>
    let s := String.intercalate "\n" ((c.recentTransactions.take 5).map renderTransactionLine)
    if s = "" then "No recent transactions" else s

/-- `db.chatMessage.findMany(\x7b where: \x7b userId \x7d, orderBy: \x7b createdAt: 'desc' \x7d,
take: 10 \x7d)`. -/
def recentMessages (db : DB) (userId : Nat) : List ChatMessageRecord :=
  ((db.chatMessages.filter (fun m => m.userId == userId)).mergeSort
    (fun a b => decide (b.createdAt ≤ a.createdAt))).take 10

/-- `recentMessages.reverse().map(msg => ...).join('\n')`. -/
def conversationHistory (recent : List ChatMessageRecord) : String :=
  String.intercalate "\n" (recent.reverse.map (fun msg => msg.role ++ ": " ++ msg.content))

/-- The `systemPrompt` template literal of `src/actions/chat.js`
(lines 129-166), as a function of the fetched financial context, the built
conversation history, and the user message content. -/
def systemPrompt (financialContext : Option FinancialContext)
    (conversationHistory content : String) : String :=
  chatJsSeg0 ++ renderSummaryNum financialContext (fun c => c.totalBalance) ++
  chatJsSeg1 ++ renderSummaryNum financialContext (fun c => c.monthlyIncome) ++
  chatJsSeg2 ++ renderSummaryNum financialContext (fun c => c.monthlyExpenses) ++
  chatJsSeg3 ++ renderSummaryNum financialContext (fun c => c.netIncome) ++
  chatJsSeg4 ++ renderBudget financialContext ++
  chatJsSeg5 ++ renderAccounts financialContext ++
  chatJsSeg6 ++ renderExpensesByCategory financialContext ++
  chatJsSeg7 ++ renderRecentTransactions financialContext ++
  chatJsSeg8 ++ conversationHistory ++
  chatJsSeg9 ++ content ++ chatJsSeg10

/-- The `systemPrompt` template literal of `src/unnamed/part_000`
(lines 129-251); its interpolated fields are identical to the
`src/actions/chat.js` ones, only the surrounding literal text differs. -/
def systemPromptPart000 (financialContext : Option FinancialContext)
    (conversationHistory content : String) : String :=
  part000Seg0 ++ renderSummaryNum financialContext (fun c => c.totalBalance) ++
  part000Seg1 ++ renderSummaryNum financialContext (fun c => c.monthlyIncome) ++
  part000Seg2 ++ renderSummaryNum financialContext (fun c => c.monthlyExpenses) ++
  part000Seg3 ++ renderSummaryNum financialContext (fun c => c.netIncome) ++
  part000Seg4 ++ renderBudget financialContext ++
  part000Seg5 ++ renderAccounts financialContext ++
  part000Seg6 ++ renderExpensesByCategory financialContext ++
  part000Seg7 ++ renderRecentTransactions financialContext ++
  part000Seg8 ++ conversationHistory ++
  part000Seg9 ++ content ++ part000Seg10

/-- The object `sendChatMessage` returns (success and failure shapes). -/
structure SendResult where
  success : Bool
  message : Option String
  userMessage : Option String
  error : Option String
deriving DecidableEq, Repr

/-- `sendChatMessage(content)` of `src/actions/chat.js` (lines 92-197) as a
state-passing function. External effects are parameters: `authUserId` is
the Clerk id from `auth()` (`none` when unauthenticated), `llm` is the
Gemini `generateContent` call (`Except.error` when it rejects), `now` the
`createdAt` the database assigns to newly created chat messages,
`startOfMonth` the month boundary derived from `new Date()`, and
`ctxFetchFails` whether the reads inside `getUserFinancialContext` fail
(its internal `catch` then yields `null`). Returns the result object
together with the final database state. -/
def sendChatMessage (authUserId : Option String) (db : DB)
    (llm : String → Except String String) (now : Nat) (startOfMonth : Int)
    (ctxFetchFails : Bool) (content : String) : SendResult × DB :=
  match authUserId with
  | none =>
    ({ success := false, message := none, userMessage := none
       error := some "Unauthorized" }, db)
  | some clerkId =>
    match db.users.find? (fun u => u.clerkUserId == clerkId) with
    | none =>
      ({ success := false, message := none, userMessage := none
         error := some "User not found" }, db)
    | some user =>
      let userMsg : ChatMessageRecord :=
        { content := content, role := "USER", userId := user.id, createdAt := now }
      let db1 : DB := { db with chatMessages := db.chatMessages ++ [userMsg] }
      let financialContext : Option FinancialContext :=
        if ctxFetchFails then none
        else some (getUserFinancialContext db1 user.id startOfMonth)
      let history := conversationHistory (recentMessages db1 user.id)
      let prompt := systemPrompt financialContext history content
      match llm prompt with
      | .error e =>
        ({ success := false, message := none, userMessage := none
           error := some e }, db1)
      | .ok aiResponse =>
        let aiMsg : ChatMessageRecord :=
          { content := aiResponse, role := "ASSISTANT", userId := user.id, createdAt := now }
        let db2 : DB := { db1 with chatMessages := db1.chatMessages ++ [aiMsg] }
        ({ success := true, message := some aiResponse
           userMessage := some content, error := none }, db2)


/-! ### Helper lemmas -/

/-- The JS `reduce((sum, t) => sum + t.amount, 0)` pattern is the sum of
the mapped amounts. -/
theorem foldl_add_eq_sum {α : Type} (f : α → Int) (l : List α) (s : Int) :
    l.foldl (fun sum t => sum + f t) s = s + (l.map f).sum := by
  induction l generalizing s with
  | nil => simp
  | cons x xs ih => simp [ih, add_assoc]

theorem lookup_upsertAdd_self (key : String) (a : Int) (m : List (String × Int)) :
    (upsertAdd key a m).lookup key = some ((m.lookup key).getD 0 + a) := by
  induction m with
  | nil => simp [upsertAdd, List.lookup]
  | cons p rest ih =>
    obtain ⟨k, v⟩ := p
    by_cases h : k = key
    · subst h
      simp [upsertAdd, List.lookup]
    · have hb : (k == key) = false := by simp [h]
      have hb' : (key == k) = false := by simp [Ne.symm h]
      simp [upsertAdd, List.lookup, hb, hb', ih]

theorem lookup_upsertAdd_other (key c : String) (a : Int) (m : List (String × Int))
    (h : c ≠ key) : (upsertAdd key a m).lookup c = m.lookup c := by
  induction m with
  | nil =>
    have hb : (c == key) = false := by simp [h]
    simp [upsertAdd, List.lookup, hb]
  | cons p rest ih =>
    obtain ⟨k, v⟩ := p
    by_cases hk : k = key
    · subst hk
      have : (c == k) = false := by simp [h]
      simp [upsertAdd, List.lookup, this]
    · have hb : (k == key) = false := by simp [hk]
      by_cases hc : c = k
      · subst hc
        simp [upsertAdd, List.lookup, hb]
      · have : (c == k) = false := by simp [hc]
        simp [upsertAdd, List.lookup, hb, this, ih]

theorem sumValues_upsertAdd (key : String) (a : Int) (m : List (String × Int)) :
    ((upsertAdd key a m).map (fun p => p.2)).sum = (m.map (fun p => p.2)).sum + a := by
  induction m with
  | nil => simp [upsertAdd]
  | cons p rest ih =>
    obtain ⟨k, v⟩ := p
    by_cases h : k = key
    · subst h
      simp [upsertAdd]
      ring
    · have hb : (k == key) = false := by simp [h]
      simp [upsertAdd, hb, ih]
      ring

theorem mem_keys_upsertAdd (key c : String) (a : Int) (m : List (String × Int)) :
    c ∈ (upsertAdd key a m).map (fun p => p.1) ↔
      c ∈ m.map (fun p => p.1) ∨ c = key := by
  induction m with
  | nil => simp [upsertAdd]
  | cons p rest ih =>
    obtain ⟨k, v⟩ := p
    by_cases h : k = key
    · subst h
      simp [upsertAdd]
      tauto
    · have hb : (k == key) = false := by simp [h]
      simp [upsertAdd, hb, ih]
      tauto

/-- Lookup after the grouping fold, with a general accumulator. -/
theorem lookup_groupFold (l : List TransactionRecord) (m : List (String × Int))
    (c : String) :
    ((l.foldl (fun acc t => upsertAdd t.category t.amount acc) m).lookup c).getD 0 =
      (m.lookup c).getD 0 + ((l.filter (fun t => t.category == c)).map
        (fun t => t.amount)).sum := by
  induction l generalizing m with
  | nil => simp
  | cons t ts ih =>
    by_cases h : t.category = c
    · subst h
      simp only [List.foldl_cons, ih, lookup_upsertAdd_self, Option.getD_some,
        List.filter_cons]
      simp [add_assoc]
    · have hb : (t.category == c) = false := by simp [h]
      simp only [List.foldl_cons, ih, List.filter_cons, hb]
      rw [lookup_upsertAdd_other t.category c t.amount m (Ne.symm h)]
      simp

/-- Value totals after the grouping fold, with a general accumulator. -/
theorem sumValues_groupFold (l : List TransactionRecord) (m : List (String × Int)) :
    ((l.foldl (fun acc t => upsertAdd t.category t.amount acc) m).map
        (fun p => p.2)).sum =
      (m.map (fun p => p.2)).sum + (l.map (fun t => t.amount)).sum := by
  induction l generalizing m with
  | nil => simp
  | cons t ts ih =>
    simp only [List.foldl_cons, ih, sumValues_upsertAdd, List.map_cons, List.sum_cons]
    ring

/-- Keys after the grouping fold, with a general accumulator. -/
theorem mem_keys_groupFold (l : List TransactionRecord) (m : List (String × Int))
    (c : String) :
    c ∈ (l.foldl (fun acc t => upsertAdd t.category t.amount acc) m).map
        (fun p => p.1) ↔
      c ∈ m.map (fun p => p.1) ∨ ∃ t ∈ l, t.category = c := by
  induction l generalizing m with
  | nil => simp
  | cons t ts ih =>
    simp only [List.foldl_cons, ih, mem_keys_upsertAdd, List.mem_cons]
    constructor
    · rintro (⟨h | h⟩ | ⟨t', ht', hc⟩)
      · exact Or.inl h
      · exact Or.inr ⟨t, Or.inl rfl, h.symm⟩
      · exact Or.inr ⟨t', Or.inr ht', hc⟩
    · rintro (h | ⟨t', ht' | ht', hc⟩)
      · exact Or.inl (Or.inl h)
      · exact Or.inl (Or.inr (by rw [← ht', hc]))
      · exact Or.inr ⟨t', ht', hc⟩

/-! ### Claims -/

/-- C1: `getUserFinancialContext` computes `monthlyIncome` as the sum of the
amounts of exactly the INCOME transactions, and `monthlyExpenses` as the sum
of the amounts of exactly the EXPENSE transactions, among the user's
transactions dated at or after the start of the current month. -/
theorem monthlyAggregates_sum_spec (db : DB) (userId : Nat) (startOfMonth : Int) :
    (getUserFinancialContext db userId startOfMonth).monthlyIncome =
      (((db.transactions.filter (fun t =>
          t.userId == userId && decide (startOfMonth ≤ t.date.epoch))).filter
            (fun t => t.type == "INCOME")).map (fun t => t.amount)).sum ∧
    (getUserFinancialContext db userId startOfMonth).monthlyExpenses =
      (((db.transactions.filter (fun t =>
          t.userId == userId && decide (startOfMonth ≤ t.date.epoch))).filter
            (fun t => t.type == "EXPENSE")).map (fun t => t.amount)).sum := by
  constructor
  · show monthlyIncome db userId startOfMonth = _
    rw [monthlyIncome, foldl_add_eq_sum]
    simp [monthlyTransactions]
  · show monthlyExpenses db userId startOfMonth = _
    rw [monthlyExpenses, foldl_add_eq_sum]
    simp [monthlyTransactions]

/-- C3: the `netIncome` field of the returned context equals
`monthlyIncome` minus `monthlyExpenses`. -/
theorem netIncome_eq_income_sub_expenses (db : DB) (userId : Nat) (startOfMonth : Int) :
    (getUserFinancialContext db userId startOfMonth).netIncome =
      (getUserFinancialContext db userId startOfMonth).monthlyIncome -
        (getUserFinancialContext db userId startOfMonth).monthlyExpenses := rfl


/-- C2: `expensesByCategory` is a group-by of the EXPENSE transactions:
every category key maps to the sum of the amounts of the EXPENSE
transactions in that category, the keys are exactly the categories of the
EXPENSE transactions, and the category totals sum to `monthlyExpenses`. -/
theorem expensesByCategory_groupBy_spec (db : DB) (userId : Nat) (startOfMonth : Int) :
    (∀ c : String,
      (((getUserFinancialContext db userId startOfMonth).expensesByCategory.lookup c).getD 0) =
        ((((monthlyTransactions db userId startOfMonth).filter
            (fun t => t.type == "EXPENSE")).filter (fun t => t.category == c)).map
              (fun t => t.amount)).sum) ∧
    (∀ c : String,
      c ∈ (getUserFinancialContext db userId startOfMonth).expensesByCategory.map
          (fun p => p.1) ↔
        ∃ t ∈ (monthlyTransactions db userId startOfMonth).filter
          (fun t => t.type == "EXPENSE"), t.category = c) ∧
    ((getUserFinancialContext db userId startOfMonth).expensesByCategory.map
        (fun p => p.2)).sum =
      (getUserFinancialContext db userId startOfMonth).monthlyExpenses := by
  refine ⟨fun c => ?_, fun c => ?_, ?_⟩
  · show ((expensesByCategory db userId startOfMonth).lookup c).getD 0 = _
    rw [expensesByCategory, lookup_groupFold]
    simp
  · show c ∈ (expensesByCategory db userId startOfMonth).map (fun p => p.1) ↔ _
    rw [expensesByCategory, mem_keys_groupFold]
    simp
  · show ((expensesByCategory db userId startOfMonth).map (fun p => p.2)).sum =
      monthlyExpenses db userId startOfMonth
    rw [expensesByCategory, sumValues_groupFold, monthlyExpenses, foldl_add_eq_sum]
    simp

/-- C4: prompt composition is deterministic: equal fetched financial
contexts, equal fetched recent-message lists and equal user message content
yield an equal composed `systemPrompt` string, in both versions of the
source file. -/
theorem systemPrompt_deterministic
    (ctx₁ ctx₂ : Option FinancialContext) (msgs₁ msgs₂ : List ChatMessageRecord)
    (content₁ content₂ : String)
    (hctx : ctx₁ = ctx₂) (hmsgs : msgs₁ = msgs₂) (hcontent : content₁ = content₂) :
    systemPrompt ctx₁ (conversationHistory msgs₁) content₁ =
      systemPrompt ctx₂ (conversationHistory msgs₂) content₂ ∧
    systemPromptPart000 ctx₁ (conversationHistory msgs₁) content₁ =
      systemPromptPart000 ctx₂ (conversationHistory msgs₂) content₂ := by
  subst hctx; subst hmsgs; subst hcontent
  exact ⟨rfl, rfl⟩

/-- Witness for C4 at concrete inputs. -/
theorem systemPrompt_deterministic_witness :
    systemPrompt none (conversationHistory []) "hello" =
      systemPrompt none (conversationHistory []) "hello" ∧
    systemPromptPart000 none (conversationHistory []) "hello" =
      systemPromptPart000 none (conversationHistory []) "hello" :=
  systemPrompt_deterministic none none [] [] "hello" "hello" rfl rfl rfl

/-- C6: the slicing of recent transactions is layered: each account
contributes its transactions ordered by date descending and at most 10 of
them, the `recentTransactions` field is the first at most 15 of their
concatenation across the user's accounts, and the prompt renders at most
the first 5 of those. -/
theorem recentTransactions_layered_slicing (db : DB) (userId : Nat)
    (startOfMonth : Int) (acc : AccountRecord) :
    accountTransactions db acc =
      (sortByDateDesc (db.transactions.filter
        (fun t => t.accountId == acc.id))).take 10 ∧
    (accountTransactions db acc).length ≤ 10 ∧
    (accountTransactions db acc).Pairwise (fun a b => b.date.epoch ≤ a.date.epoch) ∧
    (getUserFinancialContext db userId startOfMonth).recentTransactions =
      ((userAccounts db userId).flatMap (fun a =>
        (accountTransactions db a).map (fun t =>
          { amount := t.amount, description := t.description,
            category := t.category, type := t.type,
            date := t.date.isoDay }))).take 15 ∧
    (getUserFinancialContext db userId startOfMonth).recentTransactions.length ≤ 15 ∧
    ((getUserFinancialContext db userId startOfMonth).recentTransactions.take 5).length ≤ 5 ∧
    (∀ ctx : FinancialContext,
      renderRecentTransactions (some ctx) =
        if String.intercalate "\n"
            ((ctx.recentTransactions.take 5).map renderTransactionLine) = ""
          then "No recent transactions"
          else String.intercalate "\n"
            ((ctx.recentTransactions.take 5).map renderTransactionLine)) := by
  refine ⟨rfl, ?_, ?_, rfl, ?_, ?_, fun ctx => rfl⟩
  · exact List.length_take_le 10 _
  · have hs := @List.sorted_mergeSort TransactionRecord
      (fun a b => decide (b.date.epoch ≤ a.date.epoch))
      (fun a b c hab hbc => by
        simp only [decide_eq_true_eq] at hab hbc ⊢
        exact le_trans hbc hab)
      (fun a b => by
        simp only [Bool.or_eq_true, decide_eq_true_eq]
        exact le_total b.date.epoch a.date.epoch)
      (db.transactions.filter (fun t => t.accountId == acc.id))
    have hp : (accountTransactions db acc).Pairwise
        (fun a b => decide (b.date.epoch ≤ a.date.epoch) = true) :=
      hs.sublist (List.take_sublist 10 _)
    exact hp.imp (fun h => by simpa using h)
  · exact List.length_take_le 15 _
  · exact List.length_take_le 5 _

/-- C8: the two copies of `getUserFinancialContext`, in `src/actions/chat.js`
and in `src/unnamed/part_000`, return equal financial contexts on every
database state, user and month boundary. -/
theorem getUserFinancialContext_versions_equivalent (db : DB) (userId : Nat)
    (startOfMonth : Int) :
    getUserFinancialContextPart000 db userId startOfMonth =
      getUserFinancialContext db userId startOfMonth := rfl

/-- C9: a failed context fetch yields `null` rather than an exception, and
the prompt composed from a `null` context is the full template with every
summary field replaced by its fallback string, in both source versions. -/
theorem prompt_total_on_missing_context :
    (∀ (e : String) (userId : Nat) (startOfMonth : Int),
      getUserFinancialContextCaught (Except.error e) userId startOfMonth = none) ∧
    (∀ hist content : String,
      systemPrompt none hist content =
        chatJsSeg0 ++ "N/A" ++ chatJsSeg1 ++ "N/A" ++ chatJsSeg2 ++ "N/A" ++
        chatJsSeg3 ++ "N/A" ++ chatJsSeg4 ++ "No budget set" ++
        chatJsSeg5 ++ "No accounts found" ++
        chatJsSeg6 ++ "No expense data available" ++
        chatJsSeg7 ++ "No recent transactions" ++
        chatJsSeg8 ++ hist ++ chatJsSeg9 ++ content ++ chatJsSeg10) ∧
    (∀ hist content : String,
      systemPromptPart000 none hist content =
        part000Seg0 ++ "N/A" ++ part000Seg1 ++ "N/A" ++ part000Seg2 ++ "N/A" ++
        part000Seg3 ++ "N/A" ++ part000Seg4 ++ "No budget set" ++
        part000Seg5 ++ "No accounts found" ++
        part000Seg6 ++ "No expense data available" ++
        part000Seg7 ++ "No recent transactions" ++
        part000Seg8 ++ hist ++ part000Seg9 ++ content ++ part000Seg10) :=
  ⟨fun _ _ _ => rfl, fun _ _ => rfl, fun _ _ => rfl⟩


/-- C5: the conversation history embedded in the prompt is truncated to at
most the 10 most recent stored chat messages of the user, including the
just-saved user message (which has the strictly greatest `createdAt` among
the user's messages), rendered in ascending chronological order and
serialized as `ROLE: content` lines joined by newlines. -/
theorem conversationHistory_truncated (db : DB) (userId : Nat)
    (msg : ChatMessageRecord)
    (h1 : msg ∈ db.chatMessages) (h2 : msg.userId = userId)
    (h3 : ∀ m' ∈ db.chatMessages, m'.userId = userId →
      m' = msg ∨ m'.createdAt < msg.createdAt) :
    (recentMessages db userId).length ≤ 10 ∧
    (recentMessages db userId).reverse.Pairwise
      (fun a b => a.createdAt ≤ b.createdAt) ∧
    msg ∈ recentMessages db userId ∧
    conversationHistory (recentMessages db userId) =
      String.intercalate "\n" ((recentMessages db userId).reverse.map
        (fun m => m.role ++ ": " ++ m.content)) := by
  have hs := @List.sorted_mergeSort ChatMessageRecord
    (fun a b => decide (b.createdAt ≤ a.createdAt))
    (fun a b c hab hbc => by
      simp only [decide_eq_true_eq] at hab hbc ⊢
      exact le_trans hbc hab)
    (fun a b => by
      simp only [Bool.or_eq_true, decide_eq_true_eq]
      exact le_total b.createdAt a.createdAt)
    (db.chatMessages.filter (fun m => m.userId == userId))
  refine ⟨List.length_take_le 10 _, ?_, ?_, rfl⟩
  · have hp : (recentMessages db userId).Pairwise
        (fun a b => decide (b.createdAt ≤ a.createdAt) = true) :=
      hs.sublist (List.take_sublist 10 _)
    rw [List.pairwise_reverse]
    exact hp.imp (fun h => by simpa using h)
  · have hmf : msg ∈ db.chatMessages.filter (fun m => m.userId == userId) :=
      List.mem_filter.mpr ⟨h1, by simp [h2]⟩
    have hms : msg ∈ (db.chatMessages.filter
        (fun m => m.userId == userId)).mergeSort
          (fun a b => decide (b.createdAt ≤ a.createdAt)) :=
      List.mem_mergeSort.mpr hmf
    rw [recentMessages]
    rcases hsep : (db.chatMessages.filter (fun m => m.userId == userId)).mergeSort
        (fun a b => decide (b.createdAt ≤ a.createdAt)) with _ | ⟨a, rest⟩
    · rw [hsep] at hms
      exact absurd hms (List.not_mem_nil msg)
    · have hamem : a ∈ db.chatMessages.filter (fun m => m.userId == userId) := by
        have : a ∈ (db.chatMessages.filter (fun m => m.userId == userId)).mergeSort
            (fun a b => decide (b.createdAt ≤ a.createdAt)) := by
          rw [hsep]; exact List.mem_cons_self a rest
        exact List.mem_mergeSort.mp this
      have haf := List.mem_filter.mp hamem
      have hauid : a.userId = userId := by simpa using haf.2
      have haeq : a = msg := by
        rcases h3 a haf.1 hauid with h | hlt
        · exact h
        · rw [hsep] at hms
          rcases List.mem_cons.mp hms with h | h
          · exact h.symm
          · rw [hsep] at hs
            have := (List.pairwise_cons.mp hs).1 msg h
            simp only [decide_eq_true_eq] at this
            exact absurd (lt_of_lt_of_le hlt this) (lt_irrefl _)
      rw [hsep, List.take_succ_cons, haeq]
      exact List.mem_cons_self msg _

/-- C7: whenever `sendChatMessage` returns `success: true`, both the
incoming user message (role `USER`) and the LLM response (role `ASSISTANT`)
have been persisted for the authenticated user, and the returned `message`
equals the persisted assistant content. -/
theorem sendChatMessage_persists_exchange (authUserId : Option String) (db : DB)
    (llm : String → Except String String) (now : Nat) (startOfMonth : Int)
    (ctxFetchFails : Bool) (content : String)
    (h : (sendChatMessage authUserId db llm now startOfMonth
      ctxFetchFails content).1.success = true) :
    ∃ clerkId user,
      authUserId = some clerkId ∧
      db.users.find? (fun u => u.clerkUserId == clerkId) = some user ∧
      (⟨content, "USER", user.id, now⟩ : ChatMessageRecord) ∈
        (sendChatMessage authUserId db llm now startOfMonth
          ctxFetchFails content).2.chatMessages ∧
      ∃ aiResponse,
        (sendChatMessage authUserId db llm now startOfMonth
          ctxFetchFails content).1.message = some aiResponse ∧
        (⟨aiResponse, "ASSISTANT", user.id, now⟩ : ChatMessageRecord) ∈
          (sendChatMessage authUserId db llm now startOfMonth
            ctxFetchFails content).2.chatMessages := by
  rcases authUserId with _ | clerkId
  · simp [sendChatMessage] at h
  · rcases hfind : db.users.find? (fun u => u.clerkUserId == clerkId) with _ | user
    · simp [sendChatMessage, hfind] at h
    · rcases hllm : llm (systemPrompt
        (if ctxFetchFails then none
          else some (getUserFinancialContext
            { db with chatMessages :=
                db.chatMessages ++ [⟨content, "USER", user.id, now⟩] }
            user.id startOfMonth))
        (conversationHistory (recentMessages
          { db with chatMessages :=
              db.chatMessages ++ [⟨content, "USER", user.id, now⟩] } user.id))
        content) with e | aiResponse
      · simp [sendChatMessage, hfind, hllm] at h
      · refine ⟨clerkId, user, rfl, hfind, ?_, aiResponse, ?_, ?_⟩
        · simp [sendChatMessage, hfind, hllm]
        · simp [sendChatMessage, hfind, hllm]
        · simp [sendChatMessage, hfind, hllm]

/-- C10: if the LLM call fails after the user message has been persisted,
`sendChatMessage` returns `success: false` with the error message, and the
already-saved `USER` chat message remains in the store. -/
theorem sendChatMessage_not_atomic_on_failure (clerkId : String) (db : DB)
    (llm : String → Except String String) (now : Nat) (startOfMonth : Int)
    (ctxFetchFails : Bool) (content : String) (user : UserRecord) (e : String)
    (hu : db.users.find? (fun u => u.clerkUserId == clerkId) = some user)
    (hl : ∀ p, llm p = Except.error e) :
    (sendChatMessage (some clerkId) db llm now startOfMonth
      ctxFetchFails content).1.success = false ∧
    (sendChatMessage (some clerkId) db llm now startOfMonth
      ctxFetchFails content).1.error = some e ∧
    (⟨content, "USER", user.id, now⟩ : ChatMessageRecord) ∈
      (sendChatMessage (some clerkId) db llm now startOfMonth
        ctxFetchFails content).2.chatMessages := by
  refine ⟨?_, ?_, ?_⟩ <;> simp [sendChatMessage, hu, hl]

/-- A sample user row for concrete evaluations. -/
def sampleUser : UserRecord := ⟨1, "clerk1"⟩

/-- A sample database holding only that user. -/
def sampleUserDB : DB := ⟨[], [], [], [sampleUser], []⟩

/-- A sample LLM that always answers. -/
def okLLM : String → Except String String := fun _ => Except.ok "advice"

/-- A sample LLM that always rejects. -/
def failLLM : String → Except String String := fun _ => Except.error "boom"

/-- A sample user chat message with the greatest timestamp in `sampleChatDB`. -/
def sampleMsg : ChatMessageRecord := ⟨"hi", "USER", 1, 5⟩

/-- A sample database with a two-message chat history for user 1. -/
def sampleChatDB : DB := ⟨[], [], [], [sampleUser], [⟨"old", "ASSISTANT", 1, 3⟩, sampleMsg]⟩

/-- Witness for C5 at a concrete database. -/
theorem conversationHistory_truncated_witness :
    (sampleMsg ∈ sampleChatDB.chatMessages ∧ sampleMsg.userId = 1 ∧
      (∀ m' ∈ sampleChatDB.chatMessages, m'.userId = 1 →
        m' = sampleMsg ∨ m'.createdAt < sampleMsg.createdAt)) ∧
    ((recentMessages sampleChatDB 1).length ≤ 10 ∧
      (recentMessages sampleChatDB 1).reverse.Pairwise
        (fun a b => a.createdAt ≤ b.createdAt) ∧
      sampleMsg ∈ recentMessages sampleChatDB 1 ∧
      conversationHistory (recentMessages sampleChatDB 1) =
        String.intercalate "\n" ((recentMessages sampleChatDB 1).reverse.map
          (fun m => m.role ++ ": " ++ m.content))) :=
  ⟨by decide,
    conversationHistory_truncated sampleChatDB 1 sampleMsg (by decide) (by decide)
      (by decide)⟩

/-- Witness for C7 at a concrete database and LLM. -/
theorem sendChatMessage_persists_exchange_witness :
    ((sendChatMessage (some "clerk1") sampleUserDB okLLM 7 0 false
        "hello").1.success = true) ∧
    (∃ clerkId user,
      (some "clerk1" : Option String) = some clerkId ∧
      sampleUserDB.users.find? (fun u => u.clerkUserId == clerkId) = some user ∧
      (⟨"hello", "USER", user.id, 7⟩ : ChatMessageRecord) ∈
        (sendChatMessage (some "clerk1") sampleUserDB okLLM 7 0 false
          "hello").2.chatMessages ∧
      ∃ aiResponse,
        (sendChatMessage (some "clerk1") sampleUserDB okLLM 7 0 false
          "hello").1.message = some aiResponse ∧
        (⟨aiResponse, "ASSISTANT", user.id, 7⟩ : ChatMessageRecord) ∈
          (sendChatMessage (some "clerk1") sampleUserDB okLLM 7 0 false
            "hello").2.chatMessages) :=
  ⟨rfl, sendChatMessage_persists_exchange (some "clerk1") sampleUserDB okLLM 7 0
    false "hello" rfl⟩

/-- Witness for C10 at a concrete database and failing LLM. -/
theorem sendChatMessage_not_atomic_on_failure_witness :
    (sampleUserDB.users.find? (fun u => u.clerkUserId == "clerk1") =
        some sampleUser ∧
      (∀ p, failLLM p = Except.error "boom")) ∧
    ((sendChatMessage (some "clerk1") sampleUserDB failLLM 7 0 false
        "hello").1.success = false ∧
      (sendChatMessage (some "clerk1") sampleUserDB failLLM 7 0 false
        "hello").1.error = some "boom" ∧
      (⟨"hello", "USER", sampleUser.id, 7⟩ : ChatMessageRecord) ∈
        (sendChatMessage (some "clerk1") sampleUserDB failLLM 7 0 false
          "hello").2.chatMessages) :=
  ⟨⟨rfl, fun _ => rfl⟩,
    sendChatMessage_not_atomic_on_failure "clerk1" sampleUserDB failLLM 7 0 false
      "hello" sampleUser "boom" rfl (fun _ => rfl)⟩

end PFM
